import Mathlib

/-!
Shallow embedding of `src/web_search_mcp.py` (a multi-provider web-search
dispatcher) and proofs about its dispatch, formatting and configuration logic.

Python strings are modelled as `List Char` (`PyString`), Python `int` as `Int`,
and Python slicing `s[:k]` (including its negative-index semantics) as
`pySlice`. Network calls are external input: each provider is modelled by the
outcome its `search(query, count)` call produces for the request at hand.
-/

set_option autoImplicit false

/-- Python `str` values, modelled as lists of characters. -/
abbrev PyString := List Char

/-- Shorthand turning a Lean string literal into the modelled Python string. -/
def str (s : String) : PyString := s.data

/-- Python slice `xs[:k]` for an `int` bound `k`: a nonnegative `k` keeps the
first `k` elements; a negative `k` drops the last `-k` elements. -/
def pySlice {α : Type} (xs : List α) (k : Int) : List α :=
  if 0 ≤ k then xs.take k.toNat else xs.take ((xs.length : Int) + k).toNat

/-- Truthiness of an optional environment value, as Python evaluates it:
`None` and the empty string are falsy, every other string is truthy. -/
def envTruthy : Option PyString → Bool
  | none => false
  | some s => !s.isEmpty

/-- Python `int(s)` on a string, restricted to what this program can meet:
surrounding whitespace is stripped, an optional sign is accepted, and the rest
must be a nonempty run of decimal digits (digit-grouping underscores and
non-ASCII digits are not modelled). Returns `none` where Python raises
`ValueError`. -/
def pyParseInt (s : PyString) : Option Int :=
  let t := ((s.dropWhile (·.isWhitespace)).reverse.dropWhile (·.isWhitespace)).reverse
  match t with
  | [] => none
  | c :: rest =>
    let signed : Bool × PyString :=
      if c = '-' then (true, rest)
      else if c = '+' then (false, rest) else (false, c :: rest)
    if signed.2 ≠ [] ∧ signed.2.all (·.isDigit) then
      let n : Nat := signed.2.foldl (fun acc d => acc * 10 + (d.toNat - '0'.toNat)) 0
      some (if signed.1 then -(n : Int) else (n : Int))
    else none

/-- The `SearchResult` record (src lines 43-56): normalized result of any
backend. The concrete providers always construct it with string fields. -/
structure SearchResult where
  link : PyString
  title : PyString
  snippet : PyString
deriving DecidableEq

/-- Discriminant of the two concrete backend classes. -/
inductive EngineKind where
  | google
  | ollama
deriving DecidableEq

/-- A provider instance as constructed by `detect_available_engines`
(src lines 187-205): its class together with the credentials its constructor
received. `searchEngineId` is only meaningful for the google kind. -/
structure ConfiguredEngine where
  kind : EngineKind
  apiKey : Option PyString
  searchEngineId : Option PyString
deriving DecidableEq

/-- The configuration environment the program reads (src lines 192-200, 250). -/
structure Env where
  googleApiKey : Option PyString
  googleSearchEngineId : Option PyString
  ollamaApiKey : Option PyString
  maxSnippetLength : Option PyString

/-- Embedding of `detect_available_engines` (src lines 187-205): the google
provider is appended when both of its environment values are truthy; the
ollama provider is appended unconditionally, because the source condition is
`ollama_api_key or True`. -/
def detect_available_engines (env : Env) : List ConfiguredEngine :=
  (if envTruthy env.googleApiKey && envTruthy env.googleSearchEngineId then
    [⟨EngineKind.google, env.googleApiKey, env.googleSearchEngineId⟩]
  else [])
  ++ [⟨EngineKind.ollama, env.ollamaApiKey, none⟩]

/-- The only error that crosses the dispatch boundary: the plain exception
raised by `get_available_search_providers` when no engine is configured,
called `ConfigurationError` by the specification. -/
inductive DispatchError where
  | configurationError (message : PyString)
deriving DecidableEq

/-- Message of the exception raised at src line 213. -/
def noEnginesMessage : PyString :=
  str "No search engines configured. Please set up at least one of: GOOGLE_API_KEY+GOOGLE_SEARCH_ENGINE_ID or OLLAMA_API_KEY"

/-- Embedding of `get_available_search_providers` (src lines 208-215): raises
when the detected engine list is empty, otherwise passes it through. The
source computes the list by calling `detect_available_engines`; here the list
is a parameter so that the guard can be stated for any registry value. -/
def get_available_search_providers {α : Type} (availableEngines : List α) :
    Except DispatchError (List α) :=
  if availableEngines.isEmpty then
    Except.error (DispatchError.configurationError noEnginesMessage)
  else Except.ok availableEngines

/-- Outcome of one call `provider.search(query, count)`: the provider either
raises some exception (carrying its message) or returns a result list. An
empty returned list is a valid outcome, distinct from an exception. -/
inductive SearchOutcome where
  | err (message : PyString)
  | ok (results : List SearchResult)
deriving DecidableEq

/-- A provider as the dispatch loop of `web_search` sees it: the label that
`engine_name` computes for it at src line 264, and the outcome its `search`
call produces for the request being dispatched. The network call itself is
external input, so the outcome is data here. -/
structure Provider where
  engineName : PyString
  outcome : SearchOutcome
deriving DecidableEq

/-- Embedding of `int(os.getenv("MAX_SNIPPET_LENGTH", "512"))` with its
`except ValueError` fallback (src lines 248-253): an absent value parses the
default string `"512"`; an unparseable value falls back to `512`. -/
def parseMaxSnippetLength (maxSnippetEnv : Option PyString) : Int :=
  match pyParseInt (maxSnippetEnv.getD (str "512")) with
  | some n => n
  | none => 512

/-- Embedding of the snippet-limit step (src lines 277-278): when the snippet
is truthy (nonempty), the limit is truthy (nonzero) and the snippet is longer
than the limit, replace it by `snippet[:max_snippet_length - 3] + "..."`. -/
def truncateSnippet (maxSnippetLength : Int) (snippet : PyString) : PyString :=
  if snippet ≠ [] ∧ maxSnippetLength ≠ 0 ∧ maxSnippetLength < (snippet.length : Int) then
    pySlice snippet (maxSnippetLength - 3) ++ str "..."
  else snippet

/-- The snippet-limit step applied to one result record (src lines 276-278). -/
def applySnippetLimit (maxSnippetLength : Int) (r : SearchResult) : SearchResult :=
  { r with snippet := truncateSnippet maxSnippetLength r.snippet }

/-- One numbered entry of the formatted output (src line 283):
`f"{i}. **{result.title}**\n   {result.snippet}\n   {result.link}\n"`. -/
def formatResultEntry (i : Nat) (r : SearchResult) : PyString :=
  (toString i).data ++ str ". **" ++ r.title ++ str "**\n   " ++ r.snippet
    ++ str "\n   " ++ r.link ++ str "\n"

/-- The rendering step (src lines 281-285): header naming the query and the
engine, then the 1-indexed entries joined by newlines. -/
def formatResults (query engineName : PyString) (results : List SearchResult) : PyString :=
  str "Web Search Results for '" ++ query ++ str "' (via " ++ engineName ++ str "):\n\n"
    ++ List.intercalate (str "\n")
        ((List.enumFrom 1 results).map fun p => formatResultEntry p.1 p.2)

/-- The whole snippet-truncation-and-rendering step the dispatch loop runs on
a nonempty result list (src lines 275-285). -/
def truncate_and_render (query engineName : PyString) (maxSnippetLength : Int)
    (results : List SearchResult) : PyString :=
  formatResults query engineName (results.map (applySnippetLimit maxSnippetLength))

/-- The terminal message of `web_search` (src line 298), returned when every
provider raised or returned an empty list. -/
def noResultsMessage (query : PyString) : PyString :=
  str "No results found for query: " ++ query ++ str ". All available search engines were tried."

/-- Embedding of the provider-iteration loop of `web_search`
(src lines 263-298): an exception from `search` is caught and the loop
continues; an empty result list continues as well; the first nonempty result
list is truncated, rendered and returned; an exhausted list yields the
no-results message. -/
def tryProviders (query : PyString) (maxSnippetLength : Int) : List Provider → PyString
  | [] => noResultsMessage query
  | p :: rest =>
    match p.outcome with
    | SearchOutcome.err _ => tryProviders query maxSnippetLength rest
    | SearchOutcome.ok [] => tryProviders query maxSnippetLength rest
    | SearchOutcome.ok results =>
        truncate_and_render query p.engineName maxSnippetLength results

/-- Embedding of the tool function `web_search` (src lines 230-298).
`registry` is the engine list the source computes with
`get_available_search_providers` and `providersToTry` is its shuffled copy
(src lines 259-260); theorems relate the two by `List.Perm` where it matters,
since `random.shuffle` produces a permutation. -/
def web_search (query : PyString) (maxSnippetEnv : Option PyString)
    (registry providersToTry : List Provider) : Except DispatchError PyString :=
  let maxSnippetLength := parseMaxSnippetLength maxSnippetEnv
  match get_available_search_providers registry with
  | Except.error e => Except.error e
  | Except.ok _ => Except.ok (tryProviders query maxSnippetLength providersToTry)

/-- The engine labels whose `search` call the loop actually performs, in
order: every provider up to and including the first one that returns a
nonempty list; when the list is exhausted, all of them. -/
def invokedEngines : List Provider → List PyString
  | [] => []
  | p :: rest =>
    match p.outcome with
    | SearchOutcome.ok (_ :: _) => [p.engineName]
    | _ => p.engineName :: invokedEngines rest

/-- Whether a search outcome is a success carrying at least one result. -/
def hasResults : SearchOutcome → Bool
  | SearchOutcome.ok (_ :: _) => true
  | _ => false

/-- The result list carried by an outcome (empty for an exception). -/
def outcomeResults : SearchOutcome → List SearchResult
  | SearchOutcome.err _ => []
  | SearchOutcome.ok results => results

/-- The first provider of the shuffled order whose outcome is a nonempty
success: the provider whose results the dispatch loop renders. -/
def firstSuccessfulProvider (providers : List Provider) : Option Provider :=
  providers.find? (fun p => hasResults p.outcome)

/-- Embedding of `GoogleSearchProvider.search` needs the shape of one item of
the JSON `items` array (src lines 121-124): each field may be absent and then
defaults to the empty string via `item.get(..., "")`. -/
structure GoogleItem where
  link : Option PyString
  title : Option PyString
  snippet : Option PyString
deriving DecidableEq

/-- The `num` request parameter `min(count, 10)` sent by
`GoogleSearchProvider.search` (src line 109). -/
def googleRequestNum (count : Int) : Int := min count 10

/-- Parsing of the response items into `SearchResult` records
(src lines 120-126). -/
def googleParseItems (items : List GoogleItem) : List SearchResult :=
  items.map fun it => ⟨it.link.getD [], it.title.getD [], it.snippet.getD []⟩

/-- Embedding of the result handling of `GoogleSearchProvider.search`
(src lines 103-128) as a function of the parsed response items: builds the
normalized records and returns `results[:count]`. The HTTP exchange itself is
external input, represented by the `items` the response carried. -/
def GoogleSearchProvider_search (items : List GoogleItem) (count : Int) : List SearchResult :=
  pySlice (googleParseItems items) count

example : pySlice (str "abcdef") 2 = str "ab" := by decide
example : pySlice (str "abcdef") (-2) = str "abcd" := by decide
example : pySlice (str "ab") (-4) = str "" := by decide
example : pyParseInt (str "512") = some 512 := by decide
example : pyParseInt (str " -42 ") = some (-42) := by decide
example : pyParseInt (str "abc") = none := by decide
example : pyParseInt (str "") = none := by decide
example : truncateSnippet 4 (str "abcdef") = str "a..." := by decide
example : truncateSnippet 1 (str "ab") = str "..." := by decide
example : truncateSnippet 0 (str "abcdef") = str "abcdef" := by decide
example :
    formatResults (str "q") (str "Ollama") [⟨str "L", str "T", str "S"⟩]
      = str "Web Search Results for 'q' (via Ollama):\n\n1. **T**\n   S\n   L\n" := by
  decide

/-- A provider whose `search` raised is skipped by the loop. -/
theorem tryProviders_cons_err (query : PyString) (maxLen : Int) (p : Provider)
    (rest : List Provider) (e : PyString) (hp : p.outcome = SearchOutcome.err e) :
    tryProviders query maxLen (p :: rest) = tryProviders query maxLen rest := by
  simp only [tryProviders, hp]

/-- A provider whose `search` returned an empty list is skipped by the loop. -/
theorem tryProviders_cons_empty (query : PyString) (maxLen : Int) (p : Provider)
    (rest : List Provider) (hp : p.outcome = SearchOutcome.ok []) :
    tryProviders query maxLen (p :: rest) = tryProviders query maxLen rest := by
  simp only [tryProviders, hp]

/-- The loop renders exactly the first nonempty-success provider of the
shuffled order, and the no-results message when there is none. -/
theorem tryProviders_eq_find (query : PyString) (maxLen : Int) (ps : List Provider) :
    tryProviders query maxLen ps =
      match firstSuccessfulProvider ps with
      | some p => truncate_and_render query p.engineName maxLen (outcomeResults p.outcome)
      | none => noResultsMessage query := by
  induction ps with
  | nil => rfl
  | cons p rest ih =>
    cases hp : p.outcome with
    | err e =>
      have hfind : firstSuccessfulProvider (p :: rest) = firstSuccessfulProvider rest := by
        unfold firstSuccessfulProvider
        exact List.find?_cons_of_neg _ (by simp [hasResults, hp])
      rw [tryProviders_cons_err query maxLen p rest e hp, hfind, ih]
    | ok results =>
      cases results with
      | nil =>
        have hfind : firstSuccessfulProvider (p :: rest) = firstSuccessfulProvider rest := by
          unfold firstSuccessfulProvider
          exact List.find?_cons_of_neg _ (by simp [hasResults, hp])
        rw [tryProviders_cons_empty query maxLen p rest hp, hfind, ih]
      | cons r rs =>
        have hfind : firstSuccessfulProvider (p :: rest) = some p := by
          unfold firstSuccessfulProvider
          exact List.find?_cons_of_pos _ (by simp [hasResults, hp])
        rw [hfind]
        simp only [tryProviders, hp, outcomeResults]

/-- Reading of `tryProviders_eq_find` when some provider succeeds. -/
theorem tryProviders_of_find_some (query : PyString) (maxLen : Int)
    (ps : List Provider) (pWin : Provider)
    (hwin : firstSuccessfulProvider ps = some pWin) :
    tryProviders query maxLen ps
      = truncate_and_render query pWin.engineName maxLen (outcomeResults pWin.outcome) := by
  have h := tryProviders_eq_find query maxLen ps
  rw [hwin] at h
  exact h

/-- Reading of `tryProviders_eq_find` when no provider succeeds. -/
theorem tryProviders_of_find_none (query : PyString) (maxLen : Int)
    (ps : List Provider) (hnone : firstSuccessfulProvider ps = none) :
    tryProviders query maxLen ps = noResultsMessage query := by
  have h := tryProviders_eq_find query maxLen ps
  rw [hnone] at h
  exact h

/-- A snippet no longer than the limit is left unchanged. -/
theorem truncateSnippet_of_le (maxLen : Int) (s : PyString)
    (hle : (s.length : Int) ≤ maxLen) : truncateSnippet maxLen s = s := by
  unfold truncateSnippet
  rw [if_neg]
  rintro ⟨-, -, hlt⟩
  omega

/-- Shape and exact length of a truncated snippet when the limit is at least
the length of the ellipsis marker. -/
theorem truncateSnippet_of_lt (maxLen : Int) (s : PyString) (h3 : 3 ≤ maxLen)
    (hlt : maxLen < (s.length : Int)) :
    truncateSnippet maxLen s = pySlice s (maxLen - 3) ++ str "..." ∧
    ((truncateSnippet maxLen s).length : Int) = maxLen := by
  have hne : s ≠ [] := by
    intro h
    subst h
    simp at hlt
    omega
  have hshape : truncateSnippet maxLen s = pySlice s (maxLen - 3) ++ str "..." := by
    unfold truncateSnippet
    rw [if_pos ⟨hne, by omega, hlt⟩]
  refine ⟨hshape, ?_⟩
  rw [hshape]
  unfold pySlice
  rw [if_pos (by omega : (0:Int) ≤ maxLen - 3)]
  have hlen : s.length ≥ (maxLen - 3).toNat := by omega
  simp only [List.length_append, List.length_take, str]
  have : min (maxLen - 3).toNat s.length = (maxLen - 3).toNat := by omega
  rw [this]
  show (((maxLen - 3).toNat + 3 : ℕ) : Int) = maxLen
  omega

/-- Truncation is idempotent when the limit is zero (disabled) or at least 3. -/
theorem truncateSnippet_idem (maxLen : Int) (h : maxLen = 0 ∨ 3 ≤ maxLen)
    (s : PyString) :
    truncateSnippet maxLen (truncateSnippet maxLen s) = truncateSnippet maxLen s := by
  rcases h with h0 | h3
  · subst h0
    unfold truncateSnippet
    simp
  · by_cases hlt : maxLen < (s.length : Int)
    · obtain ⟨-, hlen⟩ := truncateSnippet_of_lt maxLen s h3 hlt
      exact truncateSnippet_of_le maxLen _ (le_of_eq hlen)
    · rw [truncateSnippet_of_le maxLen s (by omega), truncateSnippet_of_le maxLen s (by omega)]

/-- The emptiness guard evaluates to false on a nonempty registry. -/
theorem isEmpty_false_of_ne_nil {α : Type} (l : List α) (h : l ≠ []) :
    l.isEmpty = false := by
  cases l with
  | nil => exact absurd rfl h
  | cons a t => rfl

/-- With a nonempty registry the guard passes and `web_search` returns the
value of the provider-iteration loop. -/
theorem web_search_eq_ok (query : PyString) (maxSnippetEnv : Option PyString)
    (registry providersToTry : List Provider) (hreg : registry ≠ []) :
    web_search query maxSnippetEnv registry providersToTry
      = Except.ok (tryProviders query (parseMaxSnippetLength maxSnippetEnv) providersToTry) := by
  unfold web_search get_available_search_providers
  rw [isEmpty_false_of_ne_nil registry hreg]
  rfl

/-- C1: for every non-empty provider registry and every request, `web_search`
returns a string and raises nothing past its boundary except the
configuration error: an exception from an individual provider's `search` call
is caught inside the iteration loop and converted into continuation (or,
eventually, the no-results message). -/
theorem web_search_never_raises (query : PyString) (maxSnippetEnv : Option PyString)
    (registry providersToTry : List Provider) (p : Provider) (e : PyString)
    (rest : List Provider) (hreg : registry ≠ [])
    (hp : p.outcome = SearchOutcome.err e) :
    (∃ s, web_search query maxSnippetEnv registry providersToTry = Except.ok s) ∧
    tryProviders query (parseMaxSnippetLength maxSnippetEnv) (p :: rest)
      = tryProviders query (parseMaxSnippetLength maxSnippetEnv) rest := by
  constructor
  · exact ⟨tryProviders query (parseMaxSnippetLength maxSnippetEnv) providersToTry,
      web_search_eq_ok query maxSnippetEnv registry providersToTry hreg⟩
  · exact tryProviders_cons_err query (parseMaxSnippetLength maxSnippetEnv) p rest e hp

/-- Witness for C1 at a concrete request: one configured provider whose
search raised. -/
theorem web_search_never_raises_witness :
    ([⟨str "Ollama", SearchOutcome.err (str "boom")⟩] : List Provider) ≠ [] ∧
    (⟨str "Ollama", SearchOutcome.err (str "boom")⟩ : Provider).outcome
      = SearchOutcome.err (str "boom") ∧
    ((∃ s, web_search (str "lean") none
        [⟨str "Ollama", SearchOutcome.err (str "boom")⟩]
        [⟨str "Ollama", SearchOutcome.err (str "boom")⟩] = Except.ok s) ∧
      tryProviders (str "lean") (parseMaxSnippetLength none)
          (⟨str "Ollama", SearchOutcome.err (str "boom")⟩ :: [])
        = tryProviders (str "lean") (parseMaxSnippetLength none) []) :=
  ⟨by decide, rfl,
    web_search_never_raises (str "lean") none
      [⟨str "Ollama", SearchOutcome.err (str "boom")⟩]
      [⟨str "Ollama", SearchOutcome.err (str "boom")⟩]
      ⟨str "Ollama", SearchOutcome.err (str "boom")⟩ (str "boom") []
      (by decide) rfl⟩

/-- C2: with at least two providers in the shuffled order, a provider whose
search raised or returned an empty list is not surfaced: the loop continues
past it, and the response reflects the first provider of the permutation
whose outcome is a nonempty result list. -/
theorem web_search_failover (query : PyString) (maxSnippetEnv : Option PyString)
    (registry ps : List Provider) (p0 pWin : Provider) (rest : List Provider)
    (hperm : List.Perm ps registry) (h2 : 2 ≤ ps.length) (hcons : ps = p0 :: rest)
    (hsoft : (∃ e, p0.outcome = SearchOutcome.err e) ∨ p0.outcome = SearchOutcome.ok [])
    (hwin : firstSuccessfulProvider ps = some pWin) :
    tryProviders query (parseMaxSnippetLength maxSnippetEnv) ps
      = tryProviders query (parseMaxSnippetLength maxSnippetEnv) rest ∧
    web_search query maxSnippetEnv registry ps
      = Except.ok (truncate_and_render query pWin.engineName
          (parseMaxSnippetLength maxSnippetEnv) (outcomeResults pWin.outcome)) := by
  have hreg : registry ≠ [] := by
    intro h
    subst h
    rw [hperm.eq_nil] at h2
    simp at h2
  constructor
  · subst hcons
    rcases hsoft with ⟨e, he⟩ | hempty
    · exact tryProviders_cons_err query _ p0 rest e he
    · exact tryProviders_cons_empty query _ p0 rest hempty
  · rw [web_search_eq_ok query maxSnippetEnv registry ps hreg,
      tryProviders_of_find_some query (parseMaxSnippetLength maxSnippetEnv) ps pWin hwin]

/-- Witness for C2: two providers, the first raises, the second returns two
results; the response is the rendering of the second provider's results. -/
theorem web_search_failover_witness :
    tryProviders (str "rust") (parseMaxSnippetLength none)
        [⟨str "Google", SearchOutcome.err (str "http 500")⟩,
         ⟨str "Ollama", SearchOutcome.ok
            [⟨str "L1", str "T1", str "S1"⟩, ⟨str "L2", str "T2", str "S2"⟩]⟩]
      = tryProviders (str "rust") (parseMaxSnippetLength none)
        [⟨str "Ollama", SearchOutcome.ok
            [⟨str "L1", str "T1", str "S1"⟩, ⟨str "L2", str "T2", str "S2"⟩]⟩] ∧
    web_search (str "rust") none
        [⟨str "Google", SearchOutcome.err (str "http 500")⟩,
         ⟨str "Ollama", SearchOutcome.ok
            [⟨str "L1", str "T1", str "S1"⟩, ⟨str "L2", str "T2", str "S2"⟩]⟩]
        [⟨str "Google", SearchOutcome.err (str "http 500")⟩,
         ⟨str "Ollama", SearchOutcome.ok
            [⟨str "L1", str "T1", str "S1"⟩, ⟨str "L2", str "T2", str "S2"⟩]⟩]
      = Except.ok (truncate_and_render (str "rust") (str "Ollama")
          (parseMaxSnippetLength none)
          (outcomeResults (SearchOutcome.ok
            [⟨str "L1", str "T1", str "S1"⟩, ⟨str "L2", str "T2", str "S2"⟩]))) :=
  web_search_failover (str "rust") none
    [⟨str "Google", SearchOutcome.err (str "http 500")⟩,
     ⟨str "Ollama", SearchOutcome.ok
        [⟨str "L1", str "T1", str "S1"⟩, ⟨str "L2", str "T2", str "S2"⟩]⟩]
    [⟨str "Google", SearchOutcome.err (str "http 500")⟩,
     ⟨str "Ollama", SearchOutcome.ok
        [⟨str "L1", str "T1", str "S1"⟩, ⟨str "L2", str "T2", str "S2"⟩]⟩]
    ⟨str "Google", SearchOutcome.err (str "http 500")⟩
    ⟨str "Ollama", SearchOutcome.ok
        [⟨str "L1", str "T1", str "S1"⟩, ⟨str "L2", str "T2", str "S2"⟩]⟩
    [⟨str "Ollama", SearchOutcome.ok
        [⟨str "L1", str "T1", str "S1"⟩, ⟨str "L2", str "T2", str "S2"⟩]⟩]
    (List.Perm.refl _) (by decide) rfl
    (Or.inl ⟨str "http 500", rfl⟩) (by decide)

/-- C4 counterexample: with one configured provider that returns an empty
list, the dispatcher answers with the source's terminal message, which is not
the string `no results found for query: rust` claimed literally: the code
message is capitalized and carries a trailing sentence. -/
theorem no_results_literal_counterexample :
    web_search (str "rust") none
        [⟨str "Ollama", SearchOutcome.ok []⟩] [⟨str "Ollama", SearchOutcome.ok []⟩]
      = Except.ok (noResultsMessage (str "rust")) ∧
    noResultsMessage (str "rust")
      = str "No results found for query: rust. All available search engines were tried." ∧
    noResultsMessage (str "rust") ≠ str "no results found for query: rust" := by
  refine ⟨?_, by decide, by decide⟩
  rw [web_search_eq_ok (str "rust") none _ _ (by decide)]
  exact congrArg Except.ok (by decide)

/-- C4 amended: when the shuffled permutation is exhausted without any
provider producing a nonempty result list (every provider raised or returned
empty), `web_search` returns the literal message
`No results found for query: <query>. All available search engines were
tried.` as a successful string result, never as an error. -/
theorem web_search_exhausted_message (query : PyString) (maxSnippetEnv : Option PyString)
    (registry ps : List Provider) (hreg : registry ≠ [])
    (hnone : firstSuccessfulProvider ps = none) :
    web_search query maxSnippetEnv registry ps
      = Except.ok (str "No results found for query: " ++ query
          ++ str ". All available search engines were tried.") := by
  rw [web_search_eq_ok query maxSnippetEnv registry ps hreg,
    tryProviders_of_find_none query (parseMaxSnippetLength maxSnippetEnv) ps hnone]
  rfl

/-- Witness for the amended C4: one erring provider and one empty provider,
both tried, terminal message returned. -/
theorem web_search_exhausted_message_witness :
    ([⟨str "Google", SearchOutcome.err (str "down")⟩,
      ⟨str "Ollama", SearchOutcome.ok []⟩] : List Provider) ≠ [] ∧
    firstSuccessfulProvider
        [⟨str "Google", SearchOutcome.err (str "down")⟩,
         ⟨str "Ollama", SearchOutcome.ok []⟩] = none ∧
    web_search (str "lean") none
        [⟨str "Google", SearchOutcome.err (str "down")⟩,
         ⟨str "Ollama", SearchOutcome.ok []⟩]
        [⟨str "Google", SearchOutcome.err (str "down")⟩,
         ⟨str "Ollama", SearchOutcome.ok []⟩]
      = Except.ok (str "No results found for query: " ++ str "lean"
          ++ str ". All available search engines were tried.") :=
  ⟨by decide, by decide,
    web_search_exhausted_message (str "lean") none
      [⟨str "Google", SearchOutcome.err (str "down")⟩,
       ⟨str "Ollama", SearchOutcome.ok []⟩]
      [⟨str "Google", SearchOutcome.err (str "down")⟩,
       ⟨str "Ollama", SearchOutcome.ok []⟩]
      (by decide) (by decide)⟩

/-- C5: when the registry is empty, `web_search` fails with the configuration
error and the loop invokes no provider search at all (the shuffled copy of an
empty registry is empty, so the iteration never performs a call). -/
theorem web_search_empty_registry (query : PyString) (maxSnippetEnv : Option PyString)
    (registry ps : List Provider) (hreg : registry = [])
    (hperm : List.Perm ps registry) :
    web_search query maxSnippetEnv registry ps
      = Except.error (DispatchError.configurationError noEnginesMessage) ∧
    invokedEngines ps = [] := by
  subst hreg
  have hps : ps = [] := hperm.eq_nil
  subst hps
  exact ⟨rfl, rfl⟩

/-- Witness for C5 at the empty registry. -/
theorem web_search_empty_registry_witness :
    ([] : List Provider) = [] ∧
    web_search (str "lean") none [] []
      = Except.error (DispatchError.configurationError noEnginesMessage) ∧
    invokedEngines [] = [] :=
  ⟨rfl, web_search_empty_registry (str "lean") none [] [] rfl (List.Perm.refl _)⟩

/-- C6: for every environment, the detector includes a google provider
exactly when both the api key and the search engine id are set and nonempty,
always includes an ollama provider, and therefore never produces an empty
registry. -/
theorem detect_engines_registry (env : Env) :
    ((∃ e ∈ detect_available_engines env, e.kind = EngineKind.google) ↔
      envTruthy env.googleApiKey = true ∧ envTruthy env.googleSearchEngineId = true) ∧
    (∃ e ∈ detect_available_engines env, e.kind = EngineKind.ollama) ∧
    detect_available_engines env ≠ [] := by
  unfold detect_available_engines
  by_cases hg : envTruthy env.googleApiKey && envTruthy env.googleSearchEngineId
  · rw [if_pos hg]
    refine ⟨?_, ⟨⟨EngineKind.ollama, env.ollamaApiKey, none⟩, by simp, rfl⟩, by simp⟩
    simp only [Bool.and_eq_true] at hg
    exact iff_of_true ⟨⟨EngineKind.google, env.googleApiKey, env.googleSearchEngineId⟩,
      by simp, rfl⟩ hg
  · rw [if_neg hg]
    refine ⟨?_, ⟨⟨EngineKind.ollama, env.ollamaApiKey, none⟩, by simp, rfl⟩, by simp⟩
    simp only [Bool.and_eq_true] at hg
    refine iff_of_false ?_ hg
    rintro ⟨e, he, hkind⟩
    simp at he
    rw [he] at hkind
    simp at hkind

/-- C3 counterexample: with the limit set to 1 a snippet of length 2 is
longer than the limit, yet the truncated snippet is the three-character
ellipsis, not a string of length 1: the Python slice
`snippet[:max_snippet_length - 3]` has a negative bound there. -/
theorem snippet_truncation_counterexample :
    (1 : Int) < ((str "ab").length : Int) ∧
    truncateSnippet 1 (str "ab") = str "..." ∧
    ((truncateSnippet 1 (str "ab")).length : Int) ≠ 1 := by
  decide

/-- C3 amended: for every limit of at least 3, a snippet strictly longer than
the limit is replaced by its first `maxSnippetLength - 3` characters followed
by the ellipsis marker, giving length exactly `maxSnippetLength` and an
ellipsis suffix, and a snippet of length at most the limit is unchanged. -/
theorem snippet_truncation_spec (maxSnippetLength : Int) (s : PyString)
    (h3 : 3 ≤ maxSnippetLength) :
    (maxSnippetLength < (s.length : Int) →
      truncateSnippet maxSnippetLength s
        = pySlice s (maxSnippetLength - 3) ++ str "..." ∧
      ((truncateSnippet maxSnippetLength s).length : Int) = maxSnippetLength ∧
      ∃ t, truncateSnippet maxSnippetLength s = t ++ str "...") ∧
    ((s.length : Int) ≤ maxSnippetLength → truncateSnippet maxSnippetLength s = s) := by
  constructor
  · intro hlt
    obtain ⟨hshape, hlen⟩ := truncateSnippet_of_lt maxSnippetLength s h3 hlt
    exact ⟨hshape, hlen, pySlice s (maxSnippetLength - 3), hshape⟩
  · exact truncateSnippet_of_le maxSnippetLength s

/-- Witness for the amended C3 at limit 4 and a six-character snippet. -/
theorem snippet_truncation_spec_witness :
    (3 : Int) ≤ 4 ∧
    (((4 : Int) < ((str "abcdef").length : Int) →
      truncateSnippet 4 (str "abcdef") = pySlice (str "abcdef") (4 - 3) ++ str "..." ∧
      ((truncateSnippet 4 (str "abcdef")).length : Int) = 4 ∧
      ∃ t, truncateSnippet 4 (str "abcdef") = t ++ str "...") ∧
    (((str "abcdef").length : Int) ≤ 4 → truncateSnippet 4 (str "abcdef") = str "abcdef")) :=
  ⟨by decide, snippet_truncation_spec 4 (str "abcdef") (by decide)⟩

/-- C7 counterexample: for the negative requested count -1 the returned list
is `results[:-1]`, which keeps one of two parsed items, so its length is not
at most the requested count. -/
theorem google_count_counterexample :
    GoogleSearchProvider_search
        [⟨some (str "l1"), some (str "t1"), some (str "s1")⟩,
         ⟨some (str "l2"), some (str "t2"), some (str "s2")⟩] (-1)
      = [⟨str "l1", str "t1", str "s1"⟩] ∧
    ¬(((GoogleSearchProvider_search
        [⟨some (str "l1"), some (str "t1"), some (str "s1")⟩,
         ⟨some (str "l2"), some (str "t2"), some (str "s2")⟩] (-1)).length : Int) ≤ -1) := by
  decide

/-- C7 amended: for every nonnegative requested count, the `num` parameter
sent to the remote api is `min(count, 10)`, hence at most the backend hard
maximum 10, and the parsed result list is truncated to at most the requested
count. -/
theorem google_search_count_clamped (items : List GoogleItem) (count : Int)
    (hcount : 0 ≤ count) :
    googleRequestNum count = min count 10 ∧
    googleRequestNum count ≤ 10 ∧
    ((GoogleSearchProvider_search items count).length : Int) ≤ count := by
  refine ⟨rfl, min_le_right count 10, ?_⟩
  unfold GoogleSearchProvider_search pySlice
  rw [if_pos hcount]
  have hlen : (List.take count.toNat (googleParseItems items)).length
      = min count.toNat (googleParseItems items).length := List.length_take _ _
  omega

/-- Witness for the amended C7 at count 3 with one response item. -/
theorem google_search_count_clamped_witness :
    (0 : Int) ≤ 3 ∧
    (googleRequestNum 3 = min 3 10 ∧
     googleRequestNum 3 ≤ 10 ∧
     ((GoogleSearchProvider_search [⟨some (str "l"), none, none⟩] 3).length : Int) ≤ 3) :=
  ⟨by decide, google_search_count_clamped [⟨some (str "l"), none, none⟩] 3 (by decide)⟩

/-- C8: an unparseable `MAX_SNIPPET_LENGTH` value falls back to the default
512, an absent value also yields 512, and the request proceeds exactly as it
does with no value configured. -/
theorem max_snippet_length_fallback (s query : PyString)
    (registry ps : List Provider) (hbad : pyParseInt s = none) :
    parseMaxSnippetLength (some s) = 512 ∧
    parseMaxSnippetLength none = 512 ∧
    web_search query (some s) registry ps = web_search query none registry ps := by
  have h1 : parseMaxSnippetLength (some s) = 512 := by
    unfold parseMaxSnippetLength
    rw [show (some s).getD (str "512") = s from rfl, hbad]
  have h2 : parseMaxSnippetLength none = 512 := by decide
  refine ⟨h1, h2, ?_⟩
  unfold web_search
  rw [h1, h2]

/-- Witness for C8 at the invalid value `abc`. -/
theorem max_snippet_length_fallback_witness :
    pyParseInt (str "abc") = none ∧
    (parseMaxSnippetLength (some (str "abc")) = 512 ∧
     parseMaxSnippetLength none = 512 ∧
     web_search (str "q") (some (str "abc"))
         [⟨str "Ollama", SearchOutcome.ok []⟩] [⟨str "Ollama", SearchOutcome.ok []⟩]
       = web_search (str "q") none
         [⟨str "Ollama", SearchOutcome.ok []⟩] [⟨str "Ollama", SearchOutcome.ok []⟩]) :=
  ⟨by decide,
    max_snippet_length_fallback (str "abc") (str "q")
      [⟨str "Ollama", SearchOutcome.ok []⟩] [⟨str "Ollama", SearchOutcome.ok []⟩]
      (by decide)⟩

/-- C9 counterexample: with the limit set to 1, rendering the
already-truncated results again changes the text, because the truncated
snippet `...` is itself longer than the limit and is truncated again. -/
theorem truncate_render_idem_counterexample :
    truncate_and_render (str "q") (str "Ollama") 1
        ([⟨str "L", str "T", str "ab"⟩].map (applySnippetLimit 1))
      ≠ truncate_and_render (str "q") (str "Ollama") 1 [⟨str "L", str "T", str "ab"⟩] := by
  decide

/-- C9 amended: when the limit is 0 (truncation disabled) or at least 3,
applying the snippet-truncation-and-rendering step to the already-truncated
results yields text identical to the first application's output. -/
theorem truncate_render_idempotent (query engineName : PyString)
    (maxSnippetLength : Int) (results : List SearchResult)
    (h : maxSnippetLength = 0 ∨ 3 ≤ maxSnippetLength) :
    truncate_and_render query engineName maxSnippetLength
        (results.map (applySnippetLimit maxSnippetLength))
      = truncate_and_render query engineName maxSnippetLength results := by
  unfold truncate_and_render
  rw [List.map_map]
  congr 1
  apply List.map_congr_left
  intro r _
  show applySnippetLimit maxSnippetLength (applySnippetLimit maxSnippetLength r) = _
  unfold applySnippetLimit
  simp only
  rw [truncateSnippet_idem maxSnippetLength h r.snippet]

/-- Witness for the amended C9 at limit 4. -/
theorem truncate_render_idempotent_witness :
    ((4 : Int) = 0 ∨ (3 : Int) ≤ 4) ∧
    truncate_and_render (str "q") (str "Ollama") 4
        ([⟨str "L", str "T", str "abcdef"⟩].map (applySnippetLimit 4))
      = truncate_and_render (str "q") (str "Ollama") 4 [⟨str "L", str "T", str "abcdef"⟩] :=
  ⟨Or.inr (by decide),
    truncate_render_idempotent (str "q") (str "Ollama") 4
      [⟨str "L", str "T", str "abcdef"⟩] (Or.inr (by decide))⟩

/-- C10: when the configured snippet limit evaluates to 0 the truncation
condition is falsy and truncation is disabled entirely: every snippet passes
through unchanged and the rendered output equals rendering the raw results. -/
theorem zero_snippet_limit_passthrough (query engineName : PyString)
    (results : List SearchResult) :
    (∀ snippet : PyString, truncateSnippet 0 snippet = snippet) ∧
    results.map (applySnippetLimit 0) = results ∧
    truncate_and_render query engineName 0 results
      = formatResults query engineName results := by
  have htr : ∀ snippet : PyString, truncateSnippet 0 snippet = snippet := by
    intro snippet
    unfold truncateSnippet
    rw [if_neg]
    rintro ⟨-, h0, -⟩
    exact h0 rfl
  have happ : ∀ r : SearchResult, applySnippetLimit 0 r = r := by
    intro r
    unfold applySnippetLimit
    rw [htr]
  have hmap : results.map (applySnippetLimit 0) = results := by
    induction results with
    | nil => rfl
    | cons r rs ih => simp [happ r, ih]
  refine ⟨htr, hmap, ?_⟩
  unfold truncate_and_render
  rw [hmap]
